import Mathlib

/-!
Shallow embedding of the JNI bridge layer in `lib/src/main/cpp/jni.c`
(WhisperCore_Android).  The bridge adapts a managed-runtime `InputStream`
(and Android assets) to the whisper model-loader `{context, read, eof, close}`
callback protocol.

Foreign behaviour (the JVM, the Java stream, the allocator, the engine) is out
of scope of the repository and is modelled by explicit oracle parameters; each
embedded function additionally emits a trace of the JNI-level calls it makes,
so that claims about "which foreign calls happen, in what order" can be stated
directly on the trace.
-/

deriving instance DecidableEq for Except

/-- The heap struct `input_stream_context` from jni.c (lines 35-43): the
cumulative offset counter and the long-lived (global) reference to the foreign
stream object (`none` models a NULL reference).  The cached `JNIEnv` and method
id fields carry no state relevant to the claims and are not represented. -/
structure input_stream_context where
  offset : Nat
  input_stream : Option Unit
deriving DecidableEq, Repr

/-- JNI-level calls made by the stream adapter's read/eof paths, in program
order.  `callRead` is the only event that may consume foreign stream data. -/
inductive JniEvent where
  | newByteArray (size : Nat) (ok : Bool)
  | callRead (len : Nat) (result : Except Unit Int)
  | exceptionClear
  | getRegion (len : Nat) (ok : Bool)
  | deleteLocalRef
  | callAvailable (result : Int)
deriving DecidableEq, Repr

/-- Oracle for the foreign outcomes inside one `inputStreamRead` call:
whether `NewByteArray` succeeds, what the Java `InputStream.read` does
(`Except.error ()` models a raised Java exception, `Except.ok n` the returned
`jint`), and whether `GetByteArrayRegion` succeeds without an exception. -/
structure ReadOracle where
  allocOk : Bool
  readResult : Except Unit Int
  regionOk : Bool
deriving DecidableEq, Repr

/-- Result of one `inputStreamRead` call: the returned byte count, the updated
context, whether a Java exception is left pending on exit, and the trace of
JNI calls performed. -/
structure ReadOutcome where
  ret : Nat
  ctx : input_stream_context
  pendingException : Bool
  trace : List JniEvent
deriving DecidableEq, Repr

/-- Embedding of `inputStreamRead` (jni.c lines 45-102).  Paths, in source
order: the `read_size == 0` early return; the `NewByteArray` failure return —
which only logs, with no `ExceptionCheck`/`ExceptionClear`, so the
`OutOfMemoryError` a failed `NewByteArray` raises is left pending on exit;
the exception-during-`read` return (describe, clear, delete local ref);
otherwise `result_bytes` is the positive `actual_bytes_read` copied by
`GetByteArrayRegion` (or 0 if that raises, which is cleared), and 0 for the
`-1` EOF sentinel and every other non-positive return; finally the local ref
is deleted and `offset += result_bytes`. -/
def inputStreamRead (is : input_stream_context) (read_size : Nat)
    (o : ReadOracle) : ReadOutcome :=
  if read_size = 0 then
    ⟨0, is, false, []⟩
  else if o.allocOk = false then
    ⟨0, is, true, [JniEvent.newByteArray read_size false]⟩
  else
    match o.readResult with
    | Except.error _ =>
      ⟨0, is, false,
        [JniEvent.newByteArray read_size true,
         JniEvent.callRead read_size (Except.error ()),
         JniEvent.exceptionClear, JniEvent.deleteLocalRef]⟩
    | Except.ok actual =>
      let result_bytes : Nat :=
        if 0 < actual then (if o.regionOk then actual.toNat else 0) else 0
      let tr : List JniEvent :=
        [JniEvent.newByteArray read_size true,
         JniEvent.callRead read_size (Except.ok actual)] ++
        (if 0 < actual then
           JniEvent.getRegion actual.toNat o.regionOk ::
             (if o.regionOk then [] else [JniEvent.exceptionClear])
         else []) ++
        [JniEvent.deleteLocalRef]
      ⟨result_bytes, ⟨is.offset + result_bytes, is.input_stream⟩, false, tr⟩

/-- Model of the foreign `java.io.InputStream` collaborator, from the
capability contract in the spec (§6): a byte sequence with a current
position; `available` reports the bytes left; `read` returns `-1` on
exhaustion, else consumes and returns up to the requested count.  This is an
external collaborator of the repository, used only to interpret traces. -/
structure JavaInputStream where
  data : List Nat
  pos : Nat
deriving DecidableEq, Repr

/-- The collaborator's `available()` query: bytes between the position and the
end; a pure, non-consuming probe. -/
def JavaInputStream.available (s : JavaInputStream) : Int :=
  (s.data.length : Int) - (s.pos : Int)

/-- The collaborator's `read(b, 0, len)`: `-1` at end of stream, else advances
the position by the number of bytes delivered. -/
def JavaInputStream.readJ (s : JavaInputStream) (len : Nat) :
    Int × JavaInputStream :=
  if len = 0 then (0, s)
  else if s.data.length ≤ s.pos then (-1, s)
  else
    let n := min len (s.data.length - s.pos)
    ((n : Int), ⟨s.data, s.pos + n⟩)

/-- Effect of one JNI-level call on the foreign stream: only `callRead`
consumes; `callAvailable` and the buffer-management calls do not move the
stream position. -/
def applyEvent (s : JavaInputStream) : JniEvent → JavaInputStream
  | JniEvent.callRead len _ => (s.readJ len).2
  | _ => s

/-- Effect of a whole trace of JNI-level calls on the foreign stream. -/
def runTrace (s : JavaInputStream) (tr : List JniEvent) : JavaInputStream :=
  tr.foldl applyEvent s

/-- Embedding of `inputStreamEof` (jni.c lines 105-110): one `available()`
call on the foreign stream, returning `result <= 0`; it writes nothing to the
context.  Returns the boolean result, the context as left by the call, and
the trace of JNI calls made. -/
def inputStreamEof (is : input_stream_context) (s : JavaInputStream) :
    Bool × input_stream_context × List JniEvent :=
  (decide (s.available ≤ 0), is, [JniEvent.callAvailable s.available])

/-- Result of the `GetEnv` query in `inputStreamClose`: `JNI_OK`,
`JNI_EDETACHED`, or `JNI_EVERSION`. -/
inductive GetEnvStatus where
  | jniOk
  | jniDetached
  | jniEversion
deriving DecidableEq, Repr

/-- Oracle for the runtime environment seen by one `inputStreamClose` call:
whether the cached `g_vm` pointer is non-NULL, what `GetEnv` reports for the
current thread, and whether `AttachCurrentThread` succeeds. -/
structure CloseEnv where
  vmAvailable : Bool
  getEnvStatus : GetEnvStatus
  attachOk : Bool
deriving DecidableEq, Repr

/-- A heap cell holding one `input_stream_context` allocation: whether the
allocation is currently live, and its contents (the contents of freed memory
are retained so that a use-after-free read can be modelled). -/
structure CtxCell where
  allocated : Bool
  ctx : input_stream_context
deriving DecidableEq, Repr

/-- Observable actions of one `inputStreamClose` call, in program order. -/
inductive CloseEvent where
  | warnNullCtx
  | freeStruct
  | deleteGlobalRef
  | attachAttempt (ok : Bool)
  | detachThread
deriving DecidableEq, Repr

/-- The release body of `inputStreamClose` (jni.c lines 161-175), reached only
with a valid env: delete the global ref if the field is non-NULL and null the
field out, free the struct, and detach the thread iff this call attached it. -/
def closeBody (cell : CtxCell) (attachedHere : Bool) :
    CtxCell × List CloseEvent :=
  let step :=
    if (cell.ctx.input_stream).isSome then
      (CtxCell.mk cell.allocated ⟨cell.ctx.offset, none⟩,
        [CloseEvent.deleteGlobalRef])
    else (cell, [])
  (⟨false, step.1.ctx⟩,
    step.2 ++ [CloseEvent.freeStruct] ++
      (if attachedHere then [CloseEvent.detachThread] else []))

/-- Embedding of `inputStreamClose` (jni.c lines 112-176).  Paths, in source
order: NULL context warns and returns; NULL `g_vm` frees the struct and
returns (the global ref leaks); `GetEnv` reporting a detached thread attaches
(on attach failure the struct is freed and the call returns); a JNI version
error frees the struct and returns; otherwise the release body runs, followed
by a detach exactly when this call attached the thread. -/
def inputStreamClose (e : CloseEnv) (ctxNull : Bool) (cell : CtxCell) :
    CtxCell × List CloseEvent :=
  if ctxNull then (cell, [CloseEvent.warnNullCtx])
  else if e.vmAvailable = false then
    (⟨false, cell.ctx⟩, [CloseEvent.freeStruct])
  else
    match e.getEnvStatus with
    | GetEnvStatus.jniDetached =>
      if e.attachOk = false then
        (⟨false, cell.ctx⟩,
          [CloseEvent.attachAttempt false, CloseEvent.freeStruct])
      else
        let r := closeBody cell true
        (r.1, CloseEvent.attachAttempt true :: r.2)
    | GetEnvStatus.jniEversion => (⟨false, cell.ctx⟩, [CloseEvent.freeStruct])
    | GetEnvStatus.jniOk => closeBody cell false

/-- Observable actions of `initContextFromInputStream`, in program order.
`probeCalled b` records that the diagnostic `loader.eof(loader.context)`
probe executed with `b` saying whether the context argument was NULL. -/
inductive InitEvent where
  | probeCalled (ctxNull : Bool)
  | probeSkippedWarn
  | freeCtx
  | engineInit (ok : Bool)
deriving DecidableEq, Repr

/-- The diagnostic-probe guard of `initContextFromInputStream` (jni.c lines
308-313), exactly as written: the probe runs iff the `loader.eof` function
pointer is non-NULL (`eofSet`); otherwise a warning is logged and the probe is
skipped.  The guard does not inspect the context pointer: when it runs, the
context (NULL or not, recorded by `ctxNull`) is passed to the callback. -/
def eofProbeGuard (eofSet : Bool) (ctxNull : Bool) : List InitEvent :=
  if eofSet then [InitEvent.probeCalled ctxNull]
  else [InitEvent.probeSkippedWarn]

/-- Oracle for one `initContextFromInputStream` call: whether the cached
global class/method ids are initialized, whether `malloc` succeeds, whether
`NewGlobalRef` succeeds, and whether `whisper_init_with_params` succeeds. -/
structure InitEnv where
  globalsInitialized : Bool
  mallocOk : Bool
  newGlobalRefOk : Bool
  engineInitOk : Bool
deriving DecidableEq, Repr

/-- Embedding of `Java_com_whispercpp_whisper_WhisperLib_initContextFromInputStream`
(jni.c lines 260-334).  Paths, in source order: uninitialized globals return
NULL; `malloc` failure returns NULL; `NewGlobalRef` failure frees the context
and returns NULL; otherwise the loader is built with `eof` set and a non-NULL
context, the diagnostic probe guard runs, and the engine init result is
returned. -/
def initContextFromInputStream (e : InitEnv) : Option Unit × List InitEvent :=
  if e.globalsInitialized = false then (none, [])
  else if e.mallocOk = false then (none, [])
  else if e.newGlobalRefOk = false then (none, [InitEvent.freeCtx])
  else
    ((if e.engineInitOk then some () else none),
      eofProbeGuard true false ++ [InitEvent.engineInit e.engineInitOk])

/-- Observable actions of `whisper_init_from_asset`, in program order. -/
inductive AssetEvent where
  | openAttempt (ok : Bool)
  | loaderBuilt
  | engineCall
deriving DecidableEq, Repr

/-- Embedding of `whisper_init_from_asset` (jni.c lines 349-370): open the
asset by path; on failure return NULL at once — no loader is built and no
close is ever needed; on success build the asset loader and return whatever
`whisper_init_with_params` produces.  `openOk` models whether
`AAssetManager_open` succeeds for the given path, `engineOk` the engine. -/
def whisper_init_from_asset (openOk : Bool) (engineOk : Bool) :
    Option Unit × List AssetEvent :=
  if openOk = false then (none, [AssetEvent.openAttempt false])
  else
    ((if engineOk then some () else none),
      [AssetEvent.openAttempt true, AssetEvent.loaderBuilt,
       AssetEvent.engineCall])

/-- Observable actions of `fullTranscribe`, in program order. -/
inductive TransEvent where
  | acquireArr (ok : Bool)
  | releaseArr (commit : Bool)
  | engineFull (ret : Int)
  | resetTimings
  | getTimings
  | freeTimings
deriving DecidableEq, Repr

/-- Whether a `fullTranscribe` action is the engine's full-pipeline call. -/
def isEngineCall : TransEvent → Bool
  | TransEvent.engineFull _ => true
  | _ => false

/-- Embedding of `Java_com_whispercpp_whisper_WhisperLib_fullTranscribe`
(jni.c lines 412-493).  The sample array is acquired first; a NULL context
releases it (if acquired, with `JNI_ABORT`, i.e. no commit) and returns; a
failed acquisition returns with nothing to release; otherwise timings are
reset, the engine's `whisper_full` runs (returning `engineRet`), the timing
stats are fetched and freed when present, and the array is released with
`JNI_ABORT` on every path. -/
def fullTranscribe (ctxNull : Bool) (acquireOk : Bool) (engineRet : Int)
    (timingsAvail : Bool) : List TransEvent :=
  TransEvent.acquireArr acquireOk ::
    (if ctxNull then
      (if acquireOk then [TransEvent.releaseArr false] else [])
     else if acquireOk = false then []
     else
       [TransEvent.resetTimings, TransEvent.engineFull engineRet] ++
       (if timingsAvail then [TransEvent.getTimings, TransEvent.freeTimings]
        else [TransEvent.getTimings]) ++
       [TransEvent.releaseArr false])

/-- Claim C1: every `inputStreamRead` call returns a byte count of at most the
requested size — assuming the foreign `read` returns at most the requested
length — and advances the context's cumulative offset by exactly the returned
count, leaving the rest of the context unchanged. -/
theorem inputStreamRead_success_bound :
    ∀ (is : input_stream_context) (read_size : Nat) (o : ReadOracle),
    (∀ r : Int, o.readResult = Except.ok r → r ≤ (read_size : Int)) →
    (inputStreamRead is read_size o).ret ≤ read_size ∧
    (inputStreamRead is read_size o).ctx.offset
      = is.offset + (inputStreamRead is read_size o).ret ∧
    (inputStreamRead is read_size o).ctx.input_stream = is.input_stream := by
  intro is read_size o hbound
  unfold inputStreamRead
  split
  · simp
  · split
    · simp
    · rcases hres : o.readResult with e | actual
      · simp
      · have hle := hbound actual hres
        simp only [hres]
        by_cases hpos : 0 < actual
        · by_cases hreg : o.regionOk = true
          · refine ⟨?_, by simp [hpos, hreg], by simp [hpos, hreg]⟩
            simp [hpos, hreg]
            omega
          · simp [hpos, hreg]
        · simp [hpos]

/-- Witness for C1 at a concrete input: context offset 0, request 4 bytes,
foreign read returns 3. -/
theorem inputStreamRead_success_bound_witness :
    (inputStreamRead ⟨0, some ()⟩ 4 ⟨true, Except.ok 3, true⟩).ret ≤ 4 ∧
    (inputStreamRead ⟨0, some ()⟩ 4 ⟨true, Except.ok 3, true⟩).ctx.offset
      = (⟨0, some ()⟩ : input_stream_context).offset
        + (inputStreamRead ⟨0, some ()⟩ 4 ⟨true, Except.ok 3, true⟩).ret ∧
    (inputStreamRead ⟨0, some ()⟩ 4 ⟨true, Except.ok 3, true⟩).ctx.input_stream
      = (⟨0, some ()⟩ : input_stream_context).input_stream :=
  inputStreamRead_success_bound ⟨0, some ()⟩ 4 ⟨true, Except.ok 3, true⟩
    (by intro r hr; simp only [ReadOracle.readResult] at hr; injection hr with h; omega)

/-- Counterexample for C2: on a failed transient-buffer allocation the code
(jni.c lines 55-59) only logs and returns 0 — it performs no
`ExceptionCheck`/`ExceptionClear` — so the `OutOfMemoryError` raised by the
failed `NewByteArray` remains pending and propagates to the caller,
contradicting the claim's "clears any pending fault, and propagates no fault"
for the allocation-failure disjunct.  Concrete input: request 5 bytes with the
allocation failing. -/
theorem inputStreamRead_alloc_fail_counterexample :
    (inputStreamRead ⟨2, some ()⟩ 5 ⟨false, Except.ok 0, true⟩).ret = 0 ∧
    (inputStreamRead ⟨2, some ()⟩ 5
        ⟨false, Except.ok 0, true⟩).pendingException = true := by
  decide

/-- Claim C2 (amended): when the buffer was allocated and the foreign `read`
raises a runtime fault or returns the `-1` end-of-stream sentinel, the
adapter returns 0 bytes, clears the fault (none is left pending), and leaves
the context unchanged; when the transient buffer allocation fails the adapter
also returns 0 bytes with the context unchanged, but the pending allocation
fault is not cleared (see the counterexample). -/
theorem inputStreamRead_fault_paths :
    ∀ (is : input_stream_context) (read_size : Nat) (o : ReadOracle),
    (o.allocOk = true →
      (o.readResult = Except.error () ∨ o.readResult = Except.ok (-1)) →
      (inputStreamRead is read_size o).ret = 0 ∧
      (inputStreamRead is read_size o).pendingException = false ∧
      (inputStreamRead is read_size o).ctx = is) ∧
    (o.allocOk = false →
      (inputStreamRead is read_size o).ret = 0 ∧
      (inputStreamRead is read_size o).ctx = is) := by
  intro is read_size o
  constructor
  · intro halloc hcase
    unfold inputStreamRead
    split
    · simp
    · split
      · simp_all
      · rcases hres : o.readResult with e | actual
        · simp
        · rcases hcase with h | h
          · rw [hres] at h; exact absurd h (by simp)
          · rw [hres] at h
            injection h with h
            subst h
            simp
  · intro halloc
    unfold inputStreamRead
    split
    · simp
    · simp [halloc]

/-- Witness for C2 (amended) at a concrete input: the foreign read raises a
fault, which is cleared and mapped to 0 bytes. -/
theorem inputStreamRead_fault_paths_witness :
    (inputStreamRead ⟨2, some ()⟩ 5 ⟨true, Except.error (), true⟩).ret = 0 ∧
    (inputStreamRead ⟨2, some ()⟩ 5 ⟨true, Except.error (), true⟩).pendingException
      = false ∧
    (inputStreamRead ⟨2, some ()⟩ 5 ⟨true, Except.error (), true⟩).ctx
      = ⟨2, some ()⟩ :=
  (inputStreamRead_fault_paths ⟨2, some ()⟩ 5 ⟨true, Except.error (), true⟩).1
    rfl (Or.inl rfl)

/-- Claim C10: a read request of size 0 returns 0 immediately: no foreign
`read` call, no transient buffer allocation (the trace is empty), no pending
fault, and the context — in particular its cumulative offset — is unchanged. -/
theorem inputStreamRead_zero_size :
    ∀ (is : input_stream_context) (o : ReadOracle),
    inputStreamRead is 0 o = ⟨0, is, false, []⟩ := by
  intro is o
  rfl

/-- Claim C5: `inputStreamEof` returns true iff the foreign stream's
`available()` reports zero or fewer bytes; it leaves the context (in
particular the cumulative offset) unchanged, and its trace of foreign calls
leaves the stream position unchanged (a probe-then-read sees the same data). -/
theorem inputStreamEof_probe_pure :
    ∀ (is : input_stream_context) (s : JavaInputStream),
    ((inputStreamEof is s).1 = true ↔ s.available ≤ 0) ∧
    (inputStreamEof is s).2.1 = is ∧
    runTrace s (inputStreamEof is s).2.2 = s := by
  intro is s
  refine ⟨?_, rfl, rfl⟩
  simp [inputStreamEof]

/-- Witness for C5 at a concrete input: an exhausted stream reports eof. -/
theorem inputStreamEof_probe_pure_witness :
    (inputStreamEof ⟨0, some ()⟩ ⟨[], 0⟩).1 = true :=
  ((inputStreamEof_probe_pure ⟨0, some ()⟩ ⟨[], 0⟩).1).mpr (by decide)

/-- Claim C3: for a close call on a non-null context (with the VM pointer
available): when the thread binding is absent an attach is attempted; if the
attach fails only the local struct is freed — the trace is exactly the failed
attach followed by the free, so the foreign-reference release is never
attempted and the stored reference is untouched; and the call detaches the
thread (as its final action) if and only if this very call attached it. -/
theorem inputStreamClose_attach_detach :
    ∀ (e : CloseEnv) (cell : CtxCell),
    e.vmAvailable = true →
    ((inputStreamClose e false cell).2.count CloseEvent.detachThread
        = (if e.getEnvStatus = GetEnvStatus.jniDetached ∧ e.attachOk = true
           then 1 else 0)) ∧
    (e.getEnvStatus = GetEnvStatus.jniDetached →
      CloseEvent.attachAttempt e.attachOk ∈ (inputStreamClose e false cell).2) ∧
    (e.getEnvStatus = GetEnvStatus.jniDetached ∧ e.attachOk = false →
      inputStreamClose e false cell
        = (⟨false, cell.ctx⟩,
           [CloseEvent.attachAttempt false, CloseEvent.freeStruct])) ∧
    (e.getEnvStatus = GetEnvStatus.jniDetached ∧ e.attachOk = true →
      (inputStreamClose e false cell).2.getLast? = some CloseEvent.detachThread) := by
  intro e cell hvm
  rcases e with ⟨vm, st, ao⟩
  rcases cell with ⟨alloc, off, ref⟩
  simp only at hvm
  subst hvm
  cases st <;> cases ao <;> cases ref <;>
    simp [inputStreamClose, closeBody]

/-- Witness for C3 at a concrete input: detached thread, successful attach. -/
theorem inputStreamClose_attach_detach_witness :
    (inputStreamClose ⟨true, GetEnvStatus.jniDetached, true⟩ false
        ⟨true, 0, some ()⟩).2.getLast? = some CloseEvent.detachThread :=
  (inputStreamClose_attach_detach ⟨true, GetEnvStatus.jniDetached, true⟩
    ⟨true, 0, some ()⟩ rfl).2.2.2 ⟨rfl, rfl⟩

/-- Claim C4: a close call with a NULL context pointer is a no-op apart from
the logged warning (state untouched); and when the cached VM pointer is
unavailable the struct is freed locally while the foreign reference is not
released (no `deleteGlobalRef` in the trace) and the call returns normally
(the embedded function is total). -/
theorem inputStreamClose_null_and_no_vm :
    ∀ (e : CloseEnv) (cell : CtxCell),
    (inputStreamClose e true cell = (cell, [CloseEvent.warnNullCtx])) ∧
    (e.vmAvailable = false →
      inputStreamClose e false cell
        = (⟨false, cell.ctx⟩, [CloseEvent.freeStruct])) := by
  intro e cell
  constructor
  · rfl
  · intro hvm
    simp [inputStreamClose, hvm]

/-- Witness for C4 at a concrete input: the VM pointer is unavailable. -/
theorem inputStreamClose_null_and_no_vm_witness :
    inputStreamClose ⟨false, GetEnvStatus.jniOk, true⟩ false ⟨true, 5, some ()⟩
      = (⟨false, 5, some ()⟩, [CloseEvent.freeStruct]) :=
  (inputStreamClose_null_and_no_vm ⟨false, GetEnvStatus.jniOk, true⟩
    ⟨true, 5, some ()⟩).2 rfl

/-- Counterexample for C7: a second close call on the same (already closed)
context performs `free` again.  After a first close of a live cell the cell is
deallocated, yet across the two calls the struct free is performed twice —
the code has no guard making a repeated close safe for the struct itself. -/
theorem inputStreamClose_double_free_counterexample :
    (inputStreamClose ⟨true, GetEnvStatus.jniOk, true⟩ false
        ⟨true, 0, some ()⟩).1.allocated = false ∧
    (inputStreamClose ⟨true, GetEnvStatus.jniOk, true⟩ false
        ⟨true, 0, some ()⟩).2.count CloseEvent.freeStruct
      + (inputStreamClose ⟨true, GetEnvStatus.jniOk, true⟩ false
          (inputStreamClose ⟨true, GetEnvStatus.jniOk, true⟩ false
            ⟨true, 0, some ()⟩).1).2.count CloseEvent.freeStruct = 2 := by
  decide

/-- Each single close call on a non-null context performs exactly one free of
the struct. -/
theorem inputStreamClose_free_count :
    ∀ (e : CloseEnv) (cell : CtxCell),
    (inputStreamClose e false cell).2.count CloseEvent.freeStruct = 1 := by
  intro e cell
  rcases e with ⟨vm, st, ao⟩
  rcases cell with ⟨alloc, off, ref⟩
  cases vm <;> cases st <;> cases ao <;> cases ref <;>
    simp [inputStreamClose, closeBody]

/-- A close call releases the foreign reference exactly as often as the
stored reference goes from present to absent: releases performed plus
references surviving the call equal the references present before it. -/
theorem inputStreamClose_release_balance :
    ∀ (e : CloseEnv) (cell : CtxCell),
    (inputStreamClose e false cell).2.count CloseEvent.deleteGlobalRef
      + ((inputStreamClose e false cell).1.ctx.input_stream.isSome.toNat)
      = cell.ctx.input_stream.isSome.toNat := by
  intro e cell
  rcases e with ⟨vm, st, ao⟩
  rcases cell with ⟨alloc, off, ref⟩
  cases vm <;> cases st <;> cases ao <;> cases ref <;>
    simp [inputStreamClose, closeBody]

/-- Claim C7 (amended): within one close call on a non-null context the struct
is freed exactly once, and across two successive close calls on the same cell
the foreign reference is released at most once in total — the null-out-
after-release discipline protects the reference, though not the struct free
(see the counterexample). -/
theorem inputStreamClose_free_once_release_once :
    ∀ (e e2 : CloseEnv) (cell : CtxCell),
    (inputStreamClose e false cell).2.count CloseEvent.freeStruct = 1 ∧
    (inputStreamClose e false cell).2.count CloseEvent.deleteGlobalRef
      + (inputStreamClose e2 false
          (inputStreamClose e false cell).1).2.count CloseEvent.deleteGlobalRef
      ≤ 1 := by
  intro e e2 cell
  refine ⟨inputStreamClose_free_count e cell, ?_⟩
  have h1 := inputStreamClose_release_balance e cell
  have h2 := inputStreamClose_release_balance e2 (inputStreamClose e false cell).1
  have h3 : cell.ctx.input_stream.isSome.toNat ≤ 1 := Bool.toNat_le _
  omega

/-- Counterexample for C6: the diagnostic-probe guard of the initializer does
not test the loader-context pointer — it tests the `loader.eof` function
pointer.  With the eof pointer set (as the stream initializer always sets it)
and a NULL context, the probe is executed on the NULL context and no
skip-warning is logged, contradicting the claim that a null loader-context
makes the probe be skipped with a warning. -/
theorem eofProbeGuard_null_ctx_counterexample :
    eofProbeGuard true true = [InitEvent.probeCalled true] ∧
    (eofProbeGuard true true).count InitEvent.probeSkippedWarn = 0 := by
  decide

/-- Claim C6 (amended): in every execution of the stream-backed initializer
the diagnostic probe is never invoked on a NULL loader-context (every path
reaching the probe has a live allocation), the probe is never skipped (the
guard tests the always-set eof function pointer, not the context), and the
probe runs exactly on the paths that get past the globals, malloc and
global-ref checks. -/
theorem initContextFromInputStream_probe_safe :
    ∀ (e : InitEnv),
    ((initContextFromInputStream e).2.count (InitEvent.probeCalled true) = 0) ∧
    ((initContextFromInputStream e).2.count InitEvent.probeSkippedWarn = 0) ∧
    ((initContextFromInputStream e).2.count (InitEvent.probeCalled false)
      = (if e.globalsInitialized = true ∧ e.mallocOk = true ∧
            e.newGlobalRefOk = true then 1 else 0)) := by
  intro e
  rcases e with ⟨a, b, c, d⟩
  cases a <;> cases b <;> cases c <;> cases d <;> decide

/-- Claim C8: when opening the asset fails, the asset-backed initializer
returns NULL at once: the trace is just the failed open — no loader is built,
the engine is never called, and nothing was created that would need closing. -/
theorem whisper_init_from_asset_open_fail :
    ∀ (engineOk : Bool),
    whisper_init_from_asset false engineOk
      = (none, [AssetEvent.openAttempt false]) := by
  intro engineOk
  rfl

/-- Claim C9: the engine's full-pipeline call runs exactly when the context
handle is non-null and the sample array was acquired (so a null handle or a
failed acquisition returns before the engine is invoked); whenever the array
was acquired it is released exactly once with no commit (`JNI_ABORT`), on
every path; and a committing release never happens. -/
theorem fullTranscribe_guard_and_release :
    ∀ (ctxNull acquireOk : Bool) (engineRet : Int) (timingsAvail : Bool),
    ((fullTranscribe ctxNull acquireOk engineRet timingsAvail).countP isEngineCall
      = (if ctxNull = false ∧ acquireOk = true then 1 else 0)) ∧
    ((fullTranscribe ctxNull acquireOk engineRet timingsAvail).count
        (TransEvent.releaseArr false) = (if acquireOk = true then 1 else 0)) ∧
    ((fullTranscribe ctxNull acquireOk engineRet timingsAvail).count
        (TransEvent.releaseArr true) = 0) := by
  intro ctxNull acquireOk engineRet timingsAvail
  cases ctxNull <;> cases acquireOk <;> cases timingsAvail <;>
    simp [fullTranscribe, isEngineCall]
